import Mathlib

/-!
Verification of the argument-interpretation and dispatch core of the `py`
command-line multitool (`lib/python/pyflyby/_py.py`).

The development shallow-embeds the core functions of `_py.py`:
  * the ArgMode / OutputMode resolvers (`_interpret_arg_mode`,
    `_interpret_output_mode`),
  * the value-or-string parser (`_parse_value_or_string`),
  * the signature-driven argument binder (`_parse_auto_apply_args`),
  * the result printer (`print_result`),
  * the apply driver (`auto_apply`),
  * the argv-shadowing context manager (`SysArgvCtx`),
  * the heuristic action classifier (`_PyMain._run_action`).

External collaborators (the code-block parser, the auto-import evaluator,
the filesystem and tty probes, the logger and the `repr`/`str`/`pprint`
formatters) are abstracted as fields of a `PyEnv` oracle record, mirroring
the spec's decision to treat them as black boxes.  All embedded definitions
are executable, so every theorem can be checked on concrete inputs.
-/

namespace Pyflyby

/-- An opaque model of Python runtime values as they flow through the core:
strings (the only kind `_parse_value_or_string` accepts), `None`, numbers
(used for the calculator scenario), and opaque objects tagged by their
Python type name. -/
inductive PyObj where
  | str : String → PyObj
  | pyNone : PyObj
  | int : Int → PyObj
  | float : ℚ → PyObj
  | obj : String → PyObj
deriving DecidableEq

/-- The exceptions raised by the embedded core, mirroring the classes used in
`_py.py`: `TypeError`, `SyntaxError`, `ValueError`, `UnimportableNameError`,
`ParseError`, the two parse-interrupt signal classes, `AssertionError`, and a
catch-all for exceptions raised by external user code (tagged with the
Python type name). -/
inductive PyErr where
  | typeError : String → PyErr
  | syntaxError : String → PyErr
  | valueError : String → PyErr
  | unimportableName : String → PyErr
  | parseError : String → PyErr
  | wantHelp : PyErr
  | wantSource : PyErr
  | assertionError : String → PyErr
  | otherError : String → String → PyErr
deriving DecidableEq

/-- Python `type(v).__name__` for the value model. -/
def pyTypeName : PyObj → String
  | .str _ => "str"
  | .pyNone => "NoneType"
  | .int _ => "int"
  | .float _ => "float"
  | .obj t => t

/-- Python `type(e).__name__` for the exception model. -/
def errTypeName : PyErr → String
  | .typeError _ => "TypeError"
  | .syntaxError _ => "SyntaxError"
  | .valueError _ => "ValueError"
  | .unimportableName _ => "UnimportableNameError"
  | .parseError _ => "ParseError"
  | .wantHelp => "_ParseInterruptedWantHelp"
  | .wantSource => "_ParseInterruptedWantSource"
  | .assertionError _ => "AssertionError"
  | .otherError t _ => t

/-- Python `str(e)` for the exception model. -/
def errMsgOf : PyErr → String
  | .typeError m => m
  | .syntaxError m => m
  | .valueError m => m
  | .unimportableName m => m
  | .parseError m => m
  | .wantHelp => ""
  | .wantSource => ""
  | .assertionError m => m
  | .otherError _ m => m

/-- Rendering of `%r` for the simple strings appearing in the core's own
error messages (Python would call `repr`). -/
def reprS (s : String) : String := "'" ++ s ++ "'"

/-! ### String helpers

Python string primitives used by the core, implemented over the character
list so the proofs can reason about them directly. -/

/-- The characters `str.strip()` removes (ASCII whitespace). -/
def isPySpace (c : Char) : Bool :=
  c = ' ' ∨ c = '\t' ∨ c = '\n' ∨ c = '\r' ∨ c = '\x0b' ∨ c = '\x0c'

/-- Python `str.strip()` on a character list. -/
def pyStripL (l : List Char) : List Char :=
  ((l.dropWhile isPySpace).reverse.dropWhile isPySpace).reverse

/-- Python `str.strip()`. -/
def strTrim (s : String) : String := ⟨pyStripL s.data⟩

/-- Python `str.lower()` on a character list (ASCII, which covers every alias). -/
def lowerL (l : List Char) : List Char := l.map Char.toLower

/-- Python `.replace("-", "").replace("_", "")` on a character list.  Because the
patterns are single characters this is a plain filter. -/
def stripSeps (l : List Char) : List Char :=
  l.filter (fun c => ¬(c = '-' ∨ c = '_'))

/-- Python `str.startswith`. -/
def strStarts (s pre : String) : Bool := pre.data.isPrefixOf s.data

/-- Python `str.endswith`. -/
def strEnds (s suf : String) : Bool := suf.data.isSuffixOf s.data

/-- Python `s[n:]` (drop the first `n` characters). -/
def strDrop (s : String) (n : Nat) : String := ⟨s.data.drop n⟩

/-- Python `s[:-n]` (drop the last `n` characters). -/
def strDropRight (s : String) (n : Nat) : String :=
  ⟨s.data.take (s.data.length - n)⟩

/-- Python `len(s)` in characters. -/
def strLen (s : String) : Nat := s.data.length

/-- Python `str.partition("=")`: the part before the first `=`, whether an `=` was
found, and the part after it. -/
def breakAtEq : List Char → (List Char × Bool × List Char)
  | [] => ([], false, [])
  | c :: t =>
    if c = '=' then ([], true, t)
    else
      let r := breakAtEq t
      (c :: r.1, r.2.1, r.2.2)

/-- Python `str.replace("-", "_")`: with a single-character pattern this is a
character map. -/
def dashToUnderscore (s : String) : String :=
  ⟨s.data.map (fun c => if c = '-' then '_' else c)⟩

/-- Modelled from the spec: `is_identifier` lives in the identifier-helper
module (`pyflyby._idents`), which is not among the sources under
verification; the spec only requires that the binder "validate the name is a
legal identifier".  A legal Python identifier: nonempty, first character a
letter or underscore, remaining characters letters, digits or underscores. -/
def is_identifier (s : String) : Bool :=
  match s.data with
  | [] => false
  | c :: t =>
    (c.isAlpha || c = '_') && t.all (fun d => d.isAlphanum || d = '_')

/-! ### Association-list dictionaries

Model of the Python `dict` operations used by the binder (`d[k] = v`,
`k in d`, `d[k]`, `d.pop(k)`, `sorted(d.items())`), as an association list
keyed by insertion order. -/

/-- Python `d[k] = v`: replace the binding in place if the key exists, else append. -/
def dictSet {α : Type} : List (String × α) → String → α → List (String × α)
  | [], k, v => [(k, v)]
  | (k', v') :: t, k, v =>
    if k' = k then (k, v) :: t else (k', v') :: dictSet t k v

/-- Python `d.get(k)`. -/
def dictLookup {α : Type} : List (String × α) → String → Option α
  | [], _ => none
  | (k', v') :: t, k => if k' = k then some v' else dictLookup t k

/-- Python `k in d`. -/
def dictContains {α : Type} (d : List (String × α)) (k : String) : Bool :=
  (dictLookup d k).isSome

/-- Python `d[k]` with a fallback (only used to format error messages). -/
def dictGetD {α : Type} (d : List (String × α)) (k : String) (v₀ : α) : α :=
  (dictLookup d k).getD v₀

/-- Python `d.pop(k)`: the removed value and the remaining dictionary. -/
def dictPop {α : Type} : List (String × α) → String →
    Option (α × List (String × α))
  | [], _ => none
  | (k', v') :: t, k =>
    if k' = k then some (v', t)
    else (dictPop t k).map (fun r => (r.1, (k', v') :: r.2))

/-- Insert an entry into a key-sorted list (helper for `sorted(d.items())`). -/
def insertByKey {α : Type} (p : String × α) :
    List (String × α) → List (String × α)
  | [] => [p]
  | q :: t => if p.1 < q.1 then p :: q :: t else q :: insertByKey p t

/-- Python `sorted(d.items())` (keys are distinct, so key order decides). -/
def sortByKey {α : Type} : List (String × α) → List (String × α)
  | [] => []
  | p :: t => insertByKey p (sortByKey t)

/-! ### The external-collaborator oracle -/

/-- Abstraction of the external collaborators `_py.py` calls into, following
the spec's component boundary: code-block parsing (`PythonBlock`), the
auto-importing evaluator (`_Namespace.auto_eval`), `repr` of user strings,
output formatting, the `__interactive_display__` capability probe, logger
verbosity, and the tty/filesystem probes used by the action classifier. -/
structure PyEnv where
  /-- Python `PythonBlock(arg).parsable_as_expression`. -/
  parsableAsExpression : String → Bool
  /-- Python `PythonBlock(arg).parsable` (statements allowed too). -/
  parsableBlock : String → Bool
  /-- Python `namespace.auto_eval(block)`: a value, or a raised exception
  (`UnimportableNameError` when names remain unresolved after
  auto-import). -/
  autoEval : String → Except PyErr PyObj
  /-- Python `repr` of a Python string (used to wrap stdin/`--` arguments). -/
  reprStr : String → String
  /-- Python `str(result)`. -/
  pyStr : PyObj → String
  /-- Python `repr(result)`. -/
  pyRepr : PyObj → String
  /-- Python `pprint.pformat(result)`. -/
  pformat : PyObj → String
  /-- Probe `result.__interactive_display__` and, when the attribute exists,
  the value its call returns. -/
  getIDisp : PyObj → Option PyObj
  /-- Python `logger.info_enabled`. -/
  infoEnabled : Bool
  /-- Python `os.isatty(0)`. -/
  isatty : Bool
  /-- Whether `Filename(arg)` succeeds (no `UnsafeFilenameError`). -/
  isSafeFilename : String → Bool
  /-- Python `filename.exists`. -/
  fileExists : String → Bool

/-! ### Mode resolvers (`_interpret_arg_mode`, `_interpret_output_mode`) -/

/-- Python `str(arg).strip().lower()`, the normalisation `_interpret_arg_mode`
applies before consulting its alias table. -/
def argModeNormalize (s : String) : String := ⟨lowerL (pyStripL s.data)⟩

/-- Python `str(arg).strip().lower().replace("-", "").replace("_", "")`, the
normalisation `_interpret_output_mode` applies. -/
def outputModeNormalize (s : String) : String :=
  ⟨stripSeps (lowerL (pyStripL s.data))⟩

/-- The alias table of `_interpret_arg_mode`. -/
def argModeTable (rarg : String) : Option String :=
  if ["eval", "evaluate", "exprs", "expr", "expressions", "expression",
      "e"].contains rarg then some "eval"
  else if ["strings", "string", "str", "strs", "literal", "literals",
      "s"].contains rarg then some "string"
  else if ["auto", "automatic", "a"].contains rarg then some "auto"
  else if rarg = "error" then some "error"
  else none

/-- Source `_interpret_arg_mode` on a string argument. -/
def interpretArgModeStr (s : String) : Except PyErr String :=
  match argModeTable (argModeNormalize s) with
  | some m => .ok m
  | none =>
    .error (.valueError
      ("Invalid arg_mode=" ++ reprS s ++ "; expected one of eval/string/auto"))

/-- Source `_interpret_arg_mode(arg, default)`: `None` falls back to the default. -/
def interpretArgMode (arg : Option String) (default : String) :
    Except PyErr String :=
  interpretArgModeStr (arg.getD default)

/-- The alias table of `_interpret_output_mode`. -/
def outputModeTable (rarg : String) : Option String :=
  if ["none", "no", "n", "silent"].contains rarg then some "silent"
  else if ["interactive", "i"].contains rarg then some "interactive"
  else if ["print", "p", "string", "str"].contains rarg then some "str"
  else if ["repr", "r"].contains rarg then some "repr"
  else if ["pprint", "pp"].contains rarg then some "pprint"
  else if ["reprifnotnone", "reprunlessnone", "rn"].contains rarg then
    some "repr-if-not-none"
  else if ["pprintifnotnone", "pprintunlessnone", "ppn"].contains rarg then
    some "pprint-if-not-none"
  else if ["systemexit", "exit", "raise"].contains rarg then some "exit"
  else none

/-- Source `_interpret_output_mode` on a string argument. -/
def interpretOutputModeStr (s : String) : Except PyErr String :=
  match outputModeTable (outputModeNormalize s) with
  | some m => .ok m
  | none =>
    .error (.valueError
      ("Invalid output=" ++ reprS s ++ "; expected one of " ++
       "silent/interactive/str/repr/pprint/repr-if-not-none/" ++
       "pprint-if-not-none/exit"))

/-- Source `_interpret_output_mode(arg, default)`. -/
def interpretOutputMode (arg : Option String) (default : String) :
    Except PyErr String :=
  interpretOutputModeStr (arg.getD default)

/-! ### The value-or-string parser (`_parse_value_or_string`) -/

/-- Source `_parse_value_or_string(arg, namespace, arg_mode)`.  The type guard on
non-string arguments comes first, exactly as in the source; then the mode
dispatch: `string` returns the argument unchanged; `eval` requires the token
to parse as an expression and evaluates it; `auto` falls back to the literal
string when the token is unparsable or when evaluation fails with
`UnimportableNameError`; `error` always raises; an unrecognised mode
raises. -/
def parseValueOrString (env : PyEnv) (arg : PyObj) (argMode : String) :
    Except PyErr PyObj :=
  match arg with
  | .str s =>
    if argMode = "string" then .ok (.str s)
    else if argMode = "eval" then
      if env.parsableAsExpression s then env.autoEval s
      else .error (.syntaxError ("syntax error: " ++ s))
    else if argMode = "auto" then
      if env.parsableAsExpression s then
        match env.autoEval s with
        | .ok v => .ok v
        | .error (.unimportableName _) => .ok (.str s)
        | .error e => .error e
      else .ok (.str s)
    else if argMode = "error" then
      .error (.valueError ("Expected no arguments; got " ++ env.reprStr s))
    else
      .error (.valueError
        ("_parse_value_or_string(): invalid arg_mode=" ++ reprS argMode))
  | v =>
    .error (.typeError
      ("_parse_value_or_string(): expected str instead of " ++ pyTypeName v))

/-! ### The signature-driven argument binder (`_parse_auto_apply_args`) -/

/-- Source `inspect.ArgSpec` as the binder consumes it: declared parameter names in
order, the variadic-positional and variadic-keyword slot names, and the
trailing default values (aligned with the last `defaults.length` names). -/
structure ArgSpec where
  args : List String
  varargs : Option String
  keywords : Option String
  defaults : List PyObj
deriving DecidableEq

/-- Modelled from the spec: the `prefixes` helper lives in the utility
module (`pyflyby._util`), which is not among the sources under verification.
The spec says the binder builds an index mapping every non-empty prefix of
each declared parameter name to that name (the source's own comment gives
the example `{"foo": ["foobar", "foobaz"]}`).  Looking a key up in that
index therefore yields exactly the declared parameters having the non-empty
key as a prefix, in declaration order. -/
def matchedArgnames (argnames : List String) (key : String) : List String :=
  if key.data.isEmpty then []
  else argnames.filter (fun a => key.data.isPrefixOf a.data)

/-- The error message of the ambiguous-option branch. -/
def ambiguousMsg (argname : String) (matched : List String) : String :=
  "Ambiguous " ++ argname ++ ": could mean one of: " ++
    String.intercalate ", " (matched.map (fun s => "--" ++ s))

/-- The error message for a flag whose value token looks like another flag. -/
def missingArgLongMsg (arg value : String) : String :=
  "Missing argument to " ++ arg ++ ".  If you really want to use " ++
    reprS value ++ " as the argument to " ++ arg ++ ", then use " ++
    arg ++ "=" ++ value ++ "."

/-- The token-scanning loop of `_parse_auto_apply_args` (the `while args:`
loop).  Consumes tokens from the front, accumulating positional raw strings
and the keyword dictionary; raises the help/source interrupts and the
`ParseError`s of the source.  `stdin` models the content read for a bare
`-`. -/
def scanArgs (env : PyEnv) (argspec : ArgSpec) (argMode : String)
    (stdin : String) :
    List String → List String → List (String × String) →
    Except PyErr (List String × List (String × String))
  | [], pos, kw => .ok (pos, kw)
  | arg :: rest, pos, kw =>
    if arg = "--?" ∨ arg = "-?" ∨ arg = "?" then .error .wantHelp
    else if arg = "--??" ∨ arg = "-??" ∨ arg = "??" then .error .wantSource
    else if strStarts arg "-" then
      if arg = "-" then
        let data := if argMode ≠ "string" then env.reprStr stdin else stdin
        scanArgs env argspec argMode stdin rest (pos ++ [data]) kw
      else if arg = "--" then
        if argMode = "string" then .ok (pos ++ rest, kw)
        else .ok (pos ++ rest.map env.reprStr, kw)
      else
        let raw := if strStarts arg "--" then strDrop arg 2 else strDrop arg 1
        let parts := breakAtEq raw.data
        let argname₀ : String := dashToUnderscore ⟨parts.1⟩
        let hasEq : Bool := parts.2.1
        let value₀ : List Char := parts.2.2
        if ¬ is_identifier argname₀ then
          .error (.parseError ("Invalid option name " ++ argname₀))
        else
          let resolved : Except PyErr String :=
            match matchedArgnames argspec.args argname₀ with
            | [only] => .ok only
            | [] =>
              if ¬ hasEq ∧ (argname₀ = "help" ∨ argname₀ = "h") then
                .error .wantHelp
              else if ¬ hasEq ∧ argname₀ = "source" then .error .wantSource
              else if argspec.keywords.isNone then
                .error (.parseError ("Unknown option name " ++ argname₀))
              else .ok argname₀
            | m => .error (.parseError (ambiguousMsg argname₀ m))
          match resolved with
          | .error e => .error e
          | .ok finalName =>
            if value₀.isEmpty then
              match rest with
              | [] => .error (.parseError ("Missing argument to " ++ arg))
              | v :: rest' =>
                if strStarts v "--" then
                  .error (.parseError (missingArgLongMsg arg v))
                else
                  scanArgs env argspec argMode stdin rest' pos
                    (dictSet kw finalName v)
            else
              scanArgs env argspec argMode stdin rest pos
                (dictSet kw finalName ⟨value₀⟩)
    else scanArgs env argspec argMode stdin rest (pos ++ [arg]) kw

/-- The `argname2default` map: `zip(args[len(args)-len(defaults):],
defaults)` poured into a dictionary. -/
def argname2default (argspec : ArgSpec) : List (String × PyObj) :=
  ((argspec.args.drop (argspec.args.length - argspec.defaults.length)).zip
      argspec.defaults).foldl (fun d p => dictSet d p.1 p.2) []

/-- The duplicate-binding error message. -/
def duplicateMsg (argname posVal kwVal : String) : String :=
  argname ++ " specified both as positional argument (" ++ posVal ++
    ") and keyword argument (" ++ kwVal ++ ")"

/-- The reconciliation loop over the declared parameters (`for i, argname in
enumerate(argspec.args)`): a positional value wins (and clashes with a
keyword for the same name are `ParseError`s), else a supplied keyword value
is popped and parsed, else the default is used unparsed, else the required
argument is missing.  Returns the parsed declared arguments together with
the keyword bindings that remain unconsumed. -/
def bindDeclared (env : PyEnv) (argMode : String) (pos : List String)
    (dflt : List (String × PyObj)) :
    List String → Nat → List (String × String) →
    Except PyErr (List PyObj × List (String × String))
  | [], _, kw => .ok ([], kw)
  | name :: restNames, i, kw =>
    match pos.get? i with
    | some posVal =>
      if dictContains kw name then
        .error (.parseError (duplicateMsg name posVal (dictGetD kw name "")))
      else
        match parseValueOrString env (.str posVal) argMode with
        | .error e => .error e
        | .ok v =>
          match bindDeclared env argMode pos dflt restNames (i+1) kw with
          | .error e => .error e
          | .ok r => .ok (v :: r.1, r.2)
    | none =>
      match dictPop kw name with
      | some popped =>
        match parseValueOrString env (.str popped.1) argMode with
        | .error e => .error e
        | .ok v =>
          match bindDeclared env argMode pos dflt restNames (i+1) popped.2 with
          | .error e => .error e
          | .ok r => .ok (v :: r.1, r.2)
      | none =>
        match dictLookup dflt name with
        | some dv =>
          match bindDeclared env argMode pos dflt restNames (i+1) kw with
          | .error e => .error e
          | .ok r => .ok (dv :: r.1, r.2)
        | none =>
          .error (.parseError ("missing required argument " ++ name))

/-- Parse a list of raw positional strings (the variadic-positional loop). -/
def parsePosList (env : PyEnv) (argMode : String) :
    List String → Except PyErr (List PyObj)
  | [] => .ok []
  | s :: t =>
    match parseValueOrString env (.str s) argMode with
    | .error e => .error e
    | .ok v =>
      match parsePosList env argMode t with
      | .error e => .error e
      | .ok vs => .ok (v :: vs)

/-- The too-many-positional-arguments error message. -/
def tooManyMsg (argspec : ArgSpec) (pos : List String) : String :=
  let maxN := argspec.args.length
  let expected :=
    if argspec.defaults.isEmpty then toString maxN
    else toString (maxN - argspec.defaults.length) ++ "-" ++ toString maxN
  "Too many positional arguments.  Expected " ++ expected ++
    " positional argument(s): " ++ String.intercalate ", " argspec.args ++
    ".  Got " ++ toString pos.length ++ " args: " ++
    String.intercalate " " pos

/-- The final loop over the remaining keyword bindings (`sorted` order): each
value is parsed, and any exception is wrapped as a `ParseError` naming the
option. -/
def parseKwRemaining (env : PyEnv) (argMode : String) :
    List (String × String) → Except PyErr (List (String × PyObj))
  | [] => .ok []
  | (name, uv) :: t =>
    match parseValueOrString env (.str uv) argMode with
    | .error e =>
      .error (.parseError
        ("Error parsing value for --" ++ name ++ "=" ++ uv ++ ": " ++
         errTypeName e ++ ": " ++ errMsgOf e))
    | .ok v =>
      match parseKwRemaining env argMode t with
      | .error e => .error e
      | .ok vs => .ok ((name, v) :: vs)

/-- The excess-positional phase (`if len(got_pos_args) > len(argspec.args)`):
extra positional tokens are parsed into the variadic slot when one exists,
else the parse fails with the too-many message. -/
def extrasFor (env : PyEnv) (argMode : String) (argspec : ArgSpec)
    (pos : List String) : Except PyErr (List PyObj) :=
  if argspec.args.length < pos.length then
    match argspec.varargs with
    | some _ => parsePosList env argMode (pos.drop argspec.args.length)
    | none => .error (.parseError (tooManyMsg argspec pos))
  else .ok []

/-- The reconciliation phases of `_parse_auto_apply_args` after the token
scan: bind the declared parameters, handle excess positional tokens through
the variadic slot (or fail), and parse the surviving keyword bindings. -/
def reconcileAll (env : PyEnv) (argMode : String) (argspec : ArgSpec)
    (pos : List String) (kw : List (String × String)) :
    Except PyErr (List PyObj × List (String × PyObj)) :=
  match bindDeclared env argMode pos (argname2default argspec)
      argspec.args 0 kw with
  | .error e => .error e
  | .ok r =>
    match extrasFor env argMode argspec pos with
    | .error e => .error e
    | .ok extras =>
      match parseKwRemaining env argMode (sortByKey r.2) with
      | .error e => .error e
      | .ok pk => .ok (r.1 ++ extras, pk)

/-- Source `_parse_auto_apply_args(argspec, commandline_args, namespace, arg_mode)`:
the token scan followed by reconciliation. -/
def parseAutoApplyArgs (env : PyEnv) (argspec : ArgSpec)
    (tokens : List String) (argMode : String) (stdin : String) :
    Except PyErr (List PyObj × List (String × PyObj)) :=
  match scanArgs env argspec argMode stdin tokens [] [] with
  | .error e => .error e
  | .ok r => reconcileAll env argMode argspec r.1 r.2

/-! ### The result printer (`print_result`) -/

/-- What `print_result` did: printed a line, printed nothing, or terminated
the process via `SystemExit(result)`. -/
inductive PrintOutcome where
  | printed : String → PrintOutcome
  | noOutput : PrintOutcome
  | exited : PyObj → PrintOutcome
deriving DecidableEq

/-- Source `print_result(result, output_mode)`.  The output mode is resolved first;
`silent` prints nothing; `interactive` probes `__interactive_display__` and
on success replaces the result with the call's outcome and the mode with the
internal string `"result-if-not-none"` (on failure the mode becomes
`"pprint-if-not-none"`), then falls through to the print dispatch; the
dispatch handles `str`, `repr`, `pprint`, `repr-if-not-none`,
`pprint-if-not-none` and `exit`, and raises `AssertionError` on anything
else. -/
def print_result (env : PyEnv) (result : PyObj) (outputMode : Option String) :
    Except PyErr PrintOutcome :=
  match interpretOutputMode outputMode "interactive" with
  | .error e => .error e
  | .ok om₀ =>
    if om₀ = "silent" then .ok .noOutput
    else
      let st : PyObj × String :=
        if om₀ = "interactive" then
          match env.getIDisp result with
          | none => (result, "pprint-if-not-none")
          | some r => (r, "result-if-not-none")
        else (result, om₀)
      let result := st.1
      let om := st.2
      if om = "str" then .ok (.printed (env.pyStr result))
      else if om = "repr" then .ok (.printed (env.pyRepr result))
      else if om = "pprint" then .ok (.printed (env.pformat result))
      else if om = "repr-if-not-none" then
        if result ≠ .pyNone then .ok (.printed (env.pyRepr result))
        else .ok .noOutput
      else if om = "pprint-if-not-none" then
        if result ≠ .pyNone then .ok (.printed (env.pformat result))
        else .ok .noOutput
      else if om = "exit" then .ok (.exited result)
      else .error (.assertionError ("unexpected output_mode=" ++ reprS om))

/-! ### The apply driver (`auto_apply`) -/

/-- How `auto_apply` terminates around the argument-binding stage: a normal
call with the bound arguments, a help/source printout followed by
`SystemExit(0)`, a usage report followed by `SystemExit(1)`, or an exception
that propagates to the caller. -/
inductive AutoApplyOutcome where
  | called : List PyObj → List (String × PyObj) → AutoApplyOutcome
  | helpExit : Nat → Nat → AutoApplyOutcome
  | usageExit : String → Nat → Nat → AutoApplyOutcome
  | raised : PyErr → AutoApplyOutcome
deriving DecidableEq

/-- Source `auto_apply(function, commandline_args, namespace, arg_mode)` around the
binder: resolve the argument mode (default `"auto"`), run
`_parse_auto_apply_args`, and catch exactly the two interrupt signals
(printing help at verbosity 1 or source at verbosity 2, then
`SystemExit(0)`) and `ParseError` (reporting the error with a usage string
whose verbosity follows `logger.info_enabled`, then `SystemExit(1)`).  Any
other exception propagates.  The `helpExit`/`usageExit` constructors record
the usage verbosity and the exit status; the signature is supplied directly,
following the spec's boundary (collaborators expose the signature value). -/
def auto_apply (env : PyEnv) (argspec : ArgSpec) (tokens : List String)
    (argMode : Option String) (stdin : String) : AutoApplyOutcome :=
  match interpretArgMode argMode "auto" with
  | .error e => .raised e
  | .ok am =>
    match parseAutoApplyArgs env argspec tokens am stdin with
    | .ok r => .called r.1 r.2
    | .error .wantHelp => .helpExit 1 0
    | .error .wantSource => .helpExit 2 0
    | .error (.parseError m) =>
      .usageExit m (if env.infoEnabled then 1 else 0) 1
    | .error e => .raised e

/-! ### The argv-shadowing context manager (`SysArgvCtx`) -/

/-- The process state the context manager touches: `sys.argv`. -/
structure SysState where
  sysArgv : List String
deriving DecidableEq

/-- How the managed body finished. -/
inductive CtxOutcome where
  | completed : CtxOutcome
  | sysExit : Int → CtxOutcome
  | raised : PyErr → CtxOutcome
deriving DecidableEq

/-- The complaint `SysArgvCtx` logs about unaccessed arguments. -/
def unaccessedMsg (nargs : Nat) (unaccessed : List String) : String :=
  if nargs = 1 then
    "the command-line argument was not used: " ++ unaccessed.headD ""
  else if unaccessed.length = nargs then
    "all " ++ toString unaccessed.length ++
      " command-line arguments were not used: " ++
      String.intercalate " " unaccessed
  else
    toString unaccessed.length ++ " of " ++ toString nargs ++
      " command-line arguments were not used: " ++
      String.intercalate " " unaccessed

/-- Source `SysArgvCtx(*args)` as explicit state passing.  The managed body is
abstracted as a function from the argv it sees to its own outcome together
with the elements of `argv` it left unaccessed (the `LoggedList` bookkeeping;
`argv[0]` is pre-accessed by the manager itself).  An empty `args` raises
`ValueError` before `sys.argv` is touched.  Otherwise `sys.argv` is saved,
replaced, the body runs, the unaccessed check runs only on normal completion
(raising `SystemExit(1)` and logging a complaint), and the `finally` block
restores the saved `sys.argv` on every path.  Returns the final state, the
outcome, and the logged error message if any. -/
def sysArgvCtx (st : SysState) (args : List String)
    (body : List String → CtxOutcome × List String) :
    SysState × CtxOutcome × Option String :=
  match args with
  | [] => (st, .raised (.valueError "Missing args"), none)
  | _ :: _ =>
    let nargs := args.length - 1
    let origArgv := st.sysArgv
    let bodyRes := body args
    let outcome : CtxOutcome × Option String :=
      match bodyRes.1 with
      | .completed =>
        if bodyRes.2.isEmpty then (.completed, none)
        else (.sysExit 1, some (unaccessedMsg nargs bodyRes.2))
      | o => (o, none)
    (⟨origArgv⟩, outcome.1, outcome.2)

/-! ### The heuristic action classifier (`_PyMain._run_action`) -/

/-- Source `_seems_like_filename(arg)`: unsafe names are rejected outright; a `.py`
extension, an explicit path prefix, or existence on disk makes the argument
a filename. -/
def seemsLikeFilename (env : PyEnv) (arg : String) : Bool :=
  if ¬ env.isSafeFilename arg then false
  else if strEnds arg ".py" then true
  else if strStarts arg "/" ∨ strStarts arg "./" ∨ strStarts arg "../" then
    true
  else env.fileExists arg

/-- Python `re.match("\\s*$|-[a-zA-Z-]", a)`: the token is blank (entirely
whitespace, possibly empty) or begins with a dash followed by a letter or
another dash. -/
def looksLikeOptionOrBlank (a : String) : Bool :=
  a.data.all isPySpace ||
    (match a.data with
     | '-' :: c :: _ => c.isAlpha || c = '-'
     | _ => false)

/-- The action `_run_action` selects.  Constructors carry the data the
corresponding handler receives; handlers themselves (IPython startup,
module running, magics, file execution) are external collaborators. -/
inductive Action where
  | startIPython : List String → Action
  | execStdin : List String → Action
  | evalCmd : String → List String → Option String → Action
  | execFile : String → List String → Action
  | applyCmd : String → List String → Action
  | mapCmd : String → List String → Action
  | runModuleCmd : String → List String → Action
  | magicCmd : String → Action
  | versionCmd : Option String → Action
  | helpCmd : Option String → Nat → Action
  | heuristicCmd : String → List String → String → Action
  | errorExit : String → Action
  | raisedErr : PyErr → Action
deriving DecidableEq

/-- Membership of the extracted action name in one of the dispatch lists
(`action` is `None` when the first token carried no flag prefix). -/
def isAct (action : Option String) (names : List String) : Bool :=
  match action with
  | some a => names.contains a
  | none => false

/-- Source `popcmdarg()`: take the `=`-value if one was given, else consume the
next token (raising `ValueError` when none remains). -/
def popCmdArg (arg0 : String) (hasEq : Bool) (cmdarg : String)
    (args : List String) : Except PyErr (String × List String) :=
  if hasEq then .ok (cmdarg, args)
  else
    match args with
    | [] => .error (.valueError ("expected argument to " ++ arg0))
    | a :: t => .ok (a, t)

/-- The tail of `_run_action` for a first token with no recognised flag
prefix: the filename heuristic, then the join-and-eval calculator heuristic
(which forces `arg_mode="error"` and empties the residual argument vector),
then the single-token heuristic command (or a syntax error when the token
does not parse). -/
def classifyHeuristic (env : PyEnv) (argMode : Option String)
    (arg0 : String) (args : List String) : Action :=
  if seemsLikeFilename env arg0 then .execFile arg0 args
  else
    let joined := String.intercalate " " (arg0 :: args)
    if ¬ args.isEmpty ∧ argMode ≠ some "string" ∧
        ¬ args.any looksLikeOptionOrBlank ∧ env.parsableBlock joined then
      .evalCmd joined [] (some "error")
    else if ¬ env.parsableBlock arg0 then
      .errorExit ("Could not interpret as filename or expression: " ++ arg0)
    else .heuristicCmd arg0 args arg0

/-- Source `_PyMain._run_action`: the decision table keyed off the first token.
`argMode` is the global `--args` setting (already canonical, `None` when not
given).  The IPython-family actions are collapsed into `startIPython` with
the argument vector the collaborator receives. -/
def runAction (env : PyEnv) (argMode : Option String) (args : List String) :
    Action :=
  match args with
  | [] => if env.isatty then .startIPython [] else .execStdin [""]
  | arg0 :: rest =>
    if arg0 = "-" then
      if env.isatty then .startIPython [] else .execStdin args
    else if strTrim arg0 = "" then
      .raisedErr (.valueError "got empty string as first argument")
    else
      let acts : Option String × Bool × String :=
        if strStarts arg0 "--" then
          let p := breakAtEq (strDrop arg0 2).data
          (some ⟨p.1⟩, p.2.1, ⟨p.2.2⟩)
        else if strStarts arg0 "-" then
          let p := breakAtEq (strDrop arg0 1).data
          (some ⟨p.1⟩, p.2.1, ⟨p.2.2⟩)
        else if strStarts arg0 "%" then (some (strDrop arg0 1), false, "")
        else if strLen arg0 > 1 ∨ arg0 = "?" then (some arg0, false, "")
        else (none, false, "")
      let action := acts.1
      let hasEq := acts.2.1
      let cmdarg := acts.2.2
      if isAct action ["eval", "c", "e"] then
        match popCmdArg arg0 hasEq cmdarg rest with
        | .error e => .raisedErr e
        | .ok r => .evalCmd r.1 r.2 argMode
      else if isAct action ["file", "execfile", "execf", "runfile", "run",
          "f"] then
        match popCmdArg arg0 hasEq cmdarg rest with
        | .error e => .raisedErr e
        | .ok r => .execFile r.1 r.2
      else if isAct action ["apply", "call"] then
        match popCmdArg arg0 hasEq cmdarg rest with
        | .error e => .raisedErr e
        | .ok r => .applyCmd r.1 r.2
      else if isAct action ["map"] then
        match popCmdArg arg0 hasEq cmdarg rest with
        | .error e => .raisedErr e
        | .ok r => .mapCmd r.1 r.2
      else if isAct action ["xargs"] then
        .raisedErr (.otherError "NotImplementedError" "TODO: xargs")
      else if isAct action ["module", "m", "runmodule", "run_module",
          "run-module"] then
        match popCmdArg arg0 hasEq cmdarg rest with
        | .error e => .raisedErr e
        | .ok r => .runModuleCmd r.1 r.2
      else if strStarts arg0 "-m" then .runModuleCmd (strDrop arg0 2) rest
      else if isAct action ["ipython", "ip"] then .startIPython rest
      else if isAct action ["notebook", "nb"] then
        if hasEq then .raisedErr (.valueError ("unexpected argument " ++ arg0))
        else .startIPython ("notebook" :: rest)
      else if isAct action ["kernel"] then
        if hasEq then .raisedErr (.valueError ("unexpected argument " ++ arg0))
        else .startIPython ("kernel" :: rest)
      else if isAct action ["qtconsole", "qt"] then
        if hasEq then .raisedErr (.valueError ("unexpected argument " ++ arg0))
        else .startIPython ("qtconsole" :: rest)
      else if isAct action ["console"] then
        if hasEq then .raisedErr (.valueError ("unexpected argument " ++ arg0))
        else .startIPython ("console" :: rest)
      else if isAct action ["existing"] then
        .startIPython ("console" :: "--existing" ::
          (if hasEq then cmdarg :: rest else rest))
      else if isAct action ["nbconvert"] then
        .startIPython ("nbconvert" :: (if hasEq then cmdarg :: rest else rest))
      else if isAct action ["timeit"] then
        if hasEq then .raisedErr (.valueError ("unexpected argument " ++ arg0))
        else .magicCmd ("%timeit " ++ String.intercalate " " rest)
      else if isAct action ["time"] then
        if hasEq then .raisedErr (.valueError ("unexpected argument " ++ arg0))
        else .magicCmd ("%time " ++ String.intercalate " " rest)
      else if isAct action ["version"] then
        let args' := if hasEq then cmdarg :: rest else rest
        .versionCmd args'.head?
      else if isAct action ["help", "h", "?"] then
        let args' := if hasEq then cmdarg :: rest else rest
        .helpCmd args'.head? 1
      else if isAct action ["pinfo"] then
        match popCmdArg arg0 hasEq cmdarg rest with
        | .error e => .raisedErr e
        | .ok r => .helpCmd (some r.1) 1
      else if isAct action ["source", "pinfo2", "??"] then
        match popCmdArg arg0 hasEq cmdarg rest with
        | .error e => .raisedErr e
        | .ok r => .helpCmd (some r.1) 2
      else if strStarts arg0 "-" then
        .errorExit ("Unknown option " ++ arg0 ++
          (if strStarts arg0 "-c" then
            "; do you mean -c " ++ strDrop arg0 2 ++ "?" else ""))
      else if strStarts arg0 "??" then .helpCmd (some (strDrop arg0 2)) 2
      else if strEnds arg0 "??" then .helpCmd (some (strDropRight arg0 2)) 2
      else if strStarts arg0 "?" then .helpCmd (some (strDrop arg0 1)) 1
      else if strEnds arg0 "?" then .helpCmd (some (strDropRight arg0 1)) 1
      else if strStarts arg0 "%" then
        .magicCmd (String.intercalate " " (arg0 :: rest))
      else classifyHeuristic env argMode arg0 rest

/-- The value an eval-family action produces: the auto-importing evaluation
of its command text (other actions produce their value elsewhere). -/
def evalActionResult (env : PyEnv) : Action → Option (Except PyErr PyObj)
  | .evalCmd cmd _ _ => some (env.autoEval cmd)
  | _ => none

/-! ### Sample oracle instantiations

Concrete environments used to evaluate the embedded functions on the
scenario inputs of the claims. -/

/-- An inert oracle: nothing parses, nothing evaluates, no filesystem. -/
def inertEnv : PyEnv where
  parsableAsExpression := fun _ => false
  parsableBlock := fun _ => false
  autoEval := fun _ => .error (.otherError "RuntimeError" "no evaluator")
  reprStr := reprS
  pyStr := fun _ => ""
  pyRepr := fun _ => ""
  pformat := fun _ => ""
  getIDisp := fun _ => none
  infoEnabled := true
  isatty := false
  isSafeFilename := fun _ => true
  fileExists := fun _ => false

/-- An oracle for the unimportable-name scenario: every token parses as an
expression, and every evaluation fails because a name cannot be imported. -/
def unimportableEnv : PyEnv :=
  { inertEnv with
    parsableAsExpression := fun _ => true
    autoEval := fun _ =>
      .error (.unimportableName "name 'foo5' is not defined and not importable") }

/-- An oracle whose values expose `__interactive_display__` (the call
returns a string). -/
def idispEnv : PyEnv :=
  { inertEnv with getIDisp := fun _ => some (.str "shown") }

/-- An oracle for the calculator scenario: every fragment parses and
evaluates to the rational `3 / 4`. -/
def calcEnv : PyEnv :=
  { inertEnv with
    parsableBlock := fun _ => true
    parsableAsExpression := fun _ => true
    autoEval := fun _ => .ok (.float (3 / 4)) }

/-! ### Helper lemmas -/

theorem dropWhile_pySpace_eq_self {l : List Char}
    (h : ∀ c ∈ l, isPySpace c = false) : l.dropWhile isPySpace = l := by
  cases l with
  | nil => rfl
  | cons c t => simp [List.dropWhile_cons, h c (List.mem_cons_self c t)]

theorem pyStripL_eq_self {l : List Char}
    (h : ∀ c ∈ l, isPySpace c = false) : pyStripL l = l := by
  unfold pyStripL
  rw [dropWhile_pySpace_eq_self h,
      dropWhile_pySpace_eq_self (fun c hc => h c (List.mem_reverse.mp hc)),
      List.reverse_reverse]

theorem outputModeNormalize_of_noWs {s : String}
    (h : ∀ c ∈ s.data, isPySpace c = false) :
    outputModeNormalize s = ⟨stripSeps (lowerL s.data)⟩ := by
  unfold outputModeNormalize
  rw [pyStripL_eq_self h]

theorem argModeNormalize_of_noWs {s : String}
    (h : ∀ c ∈ s.data, isPySpace c = false) :
    argModeNormalize s = ⟨lowerL s.data⟩ := by
  unfold argModeNormalize
  rw [pyStripL_eq_self h]

/-! ### Claim C6 -/

/-- C6 (counterexample): the claim says both resolvers are
separator-insensitive, but `_interpret_arg_mode` never strips `-`/`_`: the
separator variant `"e_val"` of the alias `"eval"` is rejected with
`ValueError` while `"eval"` resolves, and (for contrast)
`_interpret_output_mode` does accept the separator/case variant
`"Repr_If_Not_None"`. -/
theorem interpret_arg_mode_not_separator_insensitive :
    interpretArgModeStr "e_val" =
      .error (.valueError
        "Invalid arg_mode='e_val'; expected one of eval/string/auto") ∧
    interpretArgModeStr "eval" = .ok "eval" ∧
    interpretOutputModeStr "Repr_If_Not_None" = .ok "repr-if-not-none" :=
  ⟨rfl, rfl, rfl⟩

/-- C6 (amended): `_interpret_output_mode` is case- and
separator-insensitive on whitespace-free inputs (two inputs equal after
lowercasing and removing `-`/`_` accept and resolve identically), while
`_interpret_arg_mode` is only case-insensitive (two inputs equal after
lowercasing accept and resolve identically); it is not
separator-insensitive. -/
theorem interpret_modes_insensitivity :
    (∀ s₁ s₂ : String,
      (∀ c ∈ s₁.data, isPySpace c = false) →
      (∀ c ∈ s₂.data, isPySpace c = false) →
      stripSeps (lowerL s₁.data) = stripSeps (lowerL s₂.data) →
      ∀ m, (interpretOutputModeStr s₁ = .ok m ↔
            interpretOutputModeStr s₂ = .ok m)) ∧
    (∀ s₁ s₂ : String,
      (∀ c ∈ s₁.data, isPySpace c = false) →
      (∀ c ∈ s₂.data, isPySpace c = false) →
      lowerL s₁.data = lowerL s₂.data →
      ∀ m, (interpretArgModeStr s₁ = .ok m ↔
            interpretArgModeStr s₂ = .ok m)) := by
  constructor
  · intro s₁ s₂ h₁ h₂ heq m
    unfold interpretOutputModeStr
    rw [outputModeNormalize_of_noWs h₁, outputModeNormalize_of_noWs h₂, heq]
    cases outputModeTable ⟨stripSeps (lowerL s₂.data)⟩ <;> simp
  · intro s₁ s₂ h₁ h₂ heq m
    unfold interpretArgModeStr
    rw [argModeNormalize_of_noWs h₁, argModeNormalize_of_noWs h₂, heq]
    cases argModeTable ⟨lowerL s₂.data⟩ <;> simp

/-- Witness for `interpret_modes_insensitivity`: the spec's own example pair
`"Repr_If_Not_None"` / `"reprifnotnone"`, and a case variant for the
argument-mode resolver. -/
theorem interpret_modes_insensitivity_witness :
    (interpretOutputModeStr "Repr_If_Not_None" = .ok "repr-if-not-none" ↔
     interpretOutputModeStr "reprifnotnone" = .ok "repr-if-not-none") ∧
    (interpretArgModeStr "Str" = .ok "string" ↔
     interpretArgModeStr "str" = .ok "string") :=
  ⟨interpret_modes_insensitivity.1 "Repr_If_Not_None" "reprifnotnone"
      (by decide) (by decide) (by decide) "repr-if-not-none",
   interpret_modes_insensitivity.2 "Str" "str"
      (by decide) (by decide) (by decide) "string"⟩

/-! ### Claim C2 -/

/-- C2: in `auto` mode, an unparsable token is returned as its literal
string; a parsable token whose evaluation fails with
`UnimportableNameError` is returned as its literal string; any other
evaluation failure propagates unchanged. -/
theorem parse_value_or_string_auto_fallback (env : PyEnv) (s : String) :
    (env.parsableAsExpression s = false →
      parseValueOrString env (.str s) "auto" = .ok (.str s)) ∧
    (∀ m, env.parsableAsExpression s = true →
      env.autoEval s = .error (.unimportableName m) →
      parseValueOrString env (.str s) "auto" = .ok (.str s)) ∧
    (∀ e, env.parsableAsExpression s = true →
      env.autoEval s = .error e → (∀ m, e ≠ .unimportableName m) →
      parseValueOrString env (.str s) "auto" = .error e) := by
  refine ⟨?_, ?_, ?_⟩
  · intro h
    simp [parseValueOrString, h]
  · intro m h hm
    simp [parseValueOrString, h, hm]
  · intro e h he hne
    simp only [parseValueOrString, h]
    rw [he]
    cases e with
    | unimportableName m => exact absurd rfl (hne m)
    | _ => simp

/-- Witness for `parse_value_or_string_auto_fallback`: the spec's scenario
token `"foo5+2"`, parsable but with `foo5` unimportable, degrades to the
literal string `"foo5+2"`. -/
theorem parse_value_or_string_auto_fallback_witness :
    parseValueOrString unimportableEnv (.str "foo5+2") "auto" =
      .ok (.str "foo5+2") :=
  (parse_value_or_string_auto_fallback unimportableEnv "foo5+2").2.1
    "name 'foo5' is not defined and not importable" rfl rfl

/-! ### Claim C10 -/

/-- C10: a non-string argument makes `_parse_value_or_string` raise a
`TypeError` naming the offending type, in every argument mode (the guard
precedes the mode dispatch); a string argument never triggers that guard
(assuming the external evaluator does not itself fabricate the guard's
exact error). -/
theorem parse_value_or_string_type_guard (env : PyEnv) (argMode : String) :
    (∀ v : PyObj, (∀ s, v ≠ .str s) →
      parseValueOrString env v argMode =
        .error (.typeError
          ("_parse_value_or_string(): expected str instead of " ++
           pyTypeName v))) ∧
    (∀ s : String,
      (∀ c m, env.autoEval c ≠ .error (.typeError m)) →
      ∀ m, parseValueOrString env (.str s) argMode ≠
        .error (.typeError m)) := by
  constructor
  · intro v hv
    cases v with
    | str s => exact absurd rfl (hv s)
    | _ => rfl
  · intro s henv m
    simp only [parseValueOrString]
    by_cases h1 : argMode = "string"
    · simp [h1]
    by_cases h2 : argMode = "eval"
    · simp only [h1, if_false, h2, if_true]
      by_cases hp : env.parsableAsExpression s
      · simp only [hp, if_true]
        exact henv s m
      · simp [hp]
    by_cases h3 : argMode = "auto"
    · simp only [h1, if_false, h2, h3, if_true]
      by_cases hp : env.parsableAsExpression s
      · simp only [hp, if_true]
        cases he : env.autoEval s with
        | ok v => simp
        | error e =>
          cases e with
          | typeError m' => exact absurd he (henv s m')
          | _ => simp
      · simp [hp]
    by_cases h4 : argMode = "error"
    · simp [h1, h2, h3, h4]
    · simp [h1, h2, h3, h4]

/-- Witness for `parse_value_or_string_type_guard`: an `int` argument in
`string` mode raises the guard's `TypeError`, and a string argument in
`string` mode does not. -/
theorem parse_value_or_string_type_guard_witness :
    parseValueOrString inertEnv (.int 3) "string" =
      .error (.typeError
        "_parse_value_or_string(): expected str instead of int") ∧
    parseValueOrString inertEnv (.str "x") "string" ≠
      .error (.typeError
        "_parse_value_or_string(): expected str instead of str") :=
  ⟨(parse_value_or_string_type_guard inertEnv "string").1 (.int 3)
      (fun _ h => PyObj.noConfusion h),
   (parse_value_or_string_type_guard inertEnv "string").2 "x"
      (fun _ _ h => PyErr.noConfusion (Except.error.inj h))
      "_parse_value_or_string(): expected str instead of str"⟩

/-! ### Claim C1 -/

/-- C1 (code bug): in `interactive` output mode, when the value exposes
`__interactive_display__`, `print_result` invokes it and then sets the
internal mode to `"result-if-not-none"` — a string no print branch handles —
so the dispatch falls through to `raise AssertionError` instead of printing
the display outcome as the module documentation describes.  The fallback
path without the capability behaves as `pprint-if-not-none` as documented. -/
theorem print_result_interactive_display_assertion :
    print_result idispEnv (.obj "Foo") (some "interactive") =
      .error (.assertionError
        "unexpected output_mode='result-if-not-none'") ∧
    print_result inertEnv (.obj "Foo") (some "interactive") =
      .ok (.printed (inertEnv.pformat (.obj "Foo"))) :=
  ⟨rfl, rfl⟩

/-! ### Claim C8 -/

/-- C8: `auto_apply` catches the help/source interrupts raised during
argument parsing (printing help at verbosity 1, source at verbosity 2, and
terminating with exit status 0) and `ParseError` (reporting the error with
usage text and terminating with exit status 1); none of the three signals
propagates past the binder's caller. -/
theorem auto_apply_interrupt_handling (env : PyEnv) (argspec : ArgSpec)
    (tokens : List String) (argMode : Option String) (am : String)
    (stdin : String) (ham : interpretArgMode argMode "auto" = .ok am) :
    (parseAutoApplyArgs env argspec tokens am stdin = .error .wantHelp →
      auto_apply env argspec tokens argMode stdin = .helpExit 1 0) ∧
    (parseAutoApplyArgs env argspec tokens am stdin = .error .wantSource →
      auto_apply env argspec tokens argMode stdin = .helpExit 2 0) ∧
    (∀ m,
      parseAutoApplyArgs env argspec tokens am stdin =
        .error (.parseError m) →
      auto_apply env argspec tokens argMode stdin =
        .usageExit m (if env.infoEnabled then 1 else 0) 1) := by
  refine ⟨fun h => ?_, fun h => ?_, fun m h => ?_⟩ <;>
    simp [auto_apply, ham, h]

/-- Witness for `auto_apply_interrupt_handling`: a bare `?` token triggers
the help interrupt, and `auto_apply` turns it into a help printout with
exit status 0. -/
theorem auto_apply_interrupt_handling_witness :
    auto_apply inertEnv ⟨["x"], none, none, []⟩ ["?"] none "" =
      .helpExit 1 0 :=
  (auto_apply_interrupt_handling inertEnv ⟨["x"], none, none, []⟩ ["?"]
      none "auto" "" rfl).1 rfl

/-! ### Claim C9 -/

/-- C9: `SysArgvCtx` always restores `sys.argv` to its original value when
the context exits — when the body completes normally, when it raises, and
when the unaccessed-arguments check itself triggers the error exit (which
carries status 1). -/
theorem sys_argv_ctx_restores (st : SysState) (args : List String)
    (body : List String → CtxOutcome × List String) :
    (sysArgvCtx st args body).1 = st ∧
    (args ≠ [] → (body args).1 = .completed → (body args).2 ≠ [] →
      (sysArgvCtx st args body).2.1 = .sysExit 1) := by
  constructor
  · cases args with
    | nil => rfl
    | cons a t => rfl
  · intro hne hcomp hacc
    cases args with
    | nil => exact absurd rfl hne
    | cons a t =>
      simp [sysArgvCtx, hcomp, hacc]

/-- Witness for `sys_argv_ctx_restores`: a two-argument invocation whose
body completes normally but leaves one argument unaccessed restores
`sys.argv` and exits with status 1. -/
theorem sys_argv_ctx_restores_witness :
    (sysArgvCtx ⟨["orig"]⟩ ["prog", "a"]
        (fun _ => (.completed, ["a"]))).1 = ⟨["orig"]⟩ ∧
    (sysArgvCtx ⟨["orig"]⟩ ["prog", "a"]
        (fun _ => (.completed, ["a"]))).2.1 = .sysExit 1 :=
  ⟨(sys_argv_ctx_restores ⟨["orig"]⟩ ["prog", "a"]
      (fun _ => (.completed, ["a"]))).1,
   (sys_argv_ctx_restores ⟨["orig"]⟩ ["prog", "a"]
      (fun _ => (.completed, ["a"]))).2
      (fun h => List.noConfusion h) rfl (fun h => List.noConfusion h)⟩


/-! ### Dictionary lemmas -/

theorem dictContains_of_dictPop {α : Type} {d : List (String × α)}
    {k : String} {r : α × List (String × α)} (h : dictPop d k = some r) :
    dictContains d k = true := by
  induction d generalizing r with
  | nil => exact absurd h (by simp [dictPop])
  | cons p t ih =>
    obtain ⟨pk, pv⟩ := p
    by_cases hk : pk = k
    · simp [dictContains, dictLookup, hk]
    · simp only [dictPop, hk, if_false, Option.map_eq_some'] at h
      obtain ⟨r', hr', -⟩ := h
      simpa [dictContains, dictLookup, hk] using ih hr'

theorem dictContains_of_pop_rest {α : Type} {d : List (String × α)}
    {k : String} {v : α} {d' : List (String × α)}
    (h : dictPop d k = some (v, d')) (x : String)
    (hx : dictContains d' x = true) : dictContains d x = true := by
  induction d generalizing v d' with
  | nil => exact absurd h (by simp [dictPop])
  | cons p t ih =>
    obtain ⟨pk, pv⟩ := p
    by_cases hpx : pk = x
    · simp [dictContains, dictLookup, hpx]
    · simp only [dictContains, dictLookup, hpx, if_false]
      by_cases hk : pk = k
      · simp only [dictPop, hk, if_true, Option.some.injEq,
          Prod.mk.injEq] at h
        rw [← h.2] at hx
        simpa [dictContains, dictLookup, hpx] using hx
      · simp only [dictPop, hk, if_false, Option.map_eq_some'] at h
        obtain ⟨⟨v', rest⟩, hr', hform⟩ := h
        simp only [Prod.mk.injEq] at hform
        rw [← hform.2] at hx
        simp only [dictContains, dictLookup, hpx, if_false] at hx
        exact ih hr' hx

/-! ### Binder-loop invariants -/

theorem bindDeclared_not_both (env : PyEnv) (argMode : String)
    (pos : List String) (dflt : List (String × PyObj)) :
    ∀ (names : List String) (i : Nat) (kw : List (String × String))
      (r : List PyObj × List (String × String)),
      bindDeclared env argMode pos dflt names i kw = .ok r →
      ∀ j (hj : j < names.length), (pos.get? (i + j)).isSome →
        dictContains kw (names.get ⟨j, hj⟩) = false := by
  intro names
  induction names with
  | nil => intro i kw r _ j hj; exact absurd hj (Nat.not_lt_zero j)
  | cons name rest ih =>
    intro i kw r h j hj hsome
    rw [bindDeclared] at h
    split at h
    · -- pos.get? i = some pv
      next pv hp =>
      split at h
      · exact absurd h (by simp)
      · next hc =>
        split at h
        · exact absurd h (by simp)
        · next v hparse =>
          split at h
          · exact absurd h (by simp)
          · next r' hrec =>
            cases j with
            | zero =>
              simp only [List.get]
              simpa using hc
            | succ j' =>
              have hj' : j' < rest.length := Nat.lt_of_succ_lt_succ hj
              have heq : i + (j' + 1) = (i + 1) + j' := by omega
              rw [heq] at hsome
              exact ih (i+1) kw r' hrec j' hj' hsome
    · -- pos.get? i = none
      next hp =>
      have hlen : pos.length ≤ i := List.get?_eq_none.mp hp
      have hnone : pos.get? (i + j) = none :=
        List.get?_eq_none.mpr (Nat.le_trans hlen (Nat.le_add_right i j))
      rw [hnone] at hsome
      exact absurd hsome (by simp)

theorem bindDeclared_required_covered (env : PyEnv) (argMode : String)
    (pos : List String) (dflt : List (String × PyObj)) :
    ∀ (names : List String) (i : Nat) (kw : List (String × String))
      (r : List PyObj × List (String × String)),
      bindDeclared env argMode pos dflt names i kw = .ok r →
      ∀ j (hj : j < names.length),
        dictLookup dflt (names.get ⟨j, hj⟩) = none →
        (pos.get? (i + j)).isSome ∨
          dictContains kw (names.get ⟨j, hj⟩) = true := by
  intro names
  induction names with
  | nil => intro i kw r _ j hj; exact absurd hj (Nat.not_lt_zero j)
  | cons name rest ih =>
    intro i kw r h j hj hdflt
    rw [bindDeclared] at h
    split at h
    · -- pos.get? i = some pv
      next pv hp =>
      split at h
      · exact absurd h (by simp)
      · split at h
        · exact absurd h (by simp)
        · next v hparse =>
          split at h
          · exact absurd h (by simp)
          · next r' hrec =>
            cases j with
            | zero =>
              left
              rw [Nat.add_zero, hp]
              rfl
            | succ j' =>
              have hj' : j' < rest.length := Nat.lt_of_succ_lt_succ hj
              have heq : i + (j' + 1) = (i + 1) + j' := by omega
              rw [heq]
              exact ih (i+1) kw r' hrec j' hj' hdflt
    · -- pos.get? i = none
      split at h
      · -- dictPop kw name = some popped
        next popped hpop =>
        split at h
        · exact absurd h (by simp)
        · next v hparse =>
          split at h
          · exact absurd h (by simp)
          · next r' hrec =>
            cases j with
            | zero =>
              right
              simpa using dictContains_of_dictPop hpop
            | succ j' =>
              have hj' : j' < rest.length := Nat.lt_of_succ_lt_succ hj
              rcases ih (i+1) popped.2 r' hrec j' hj' hdflt with hl | hr
              · left
                have heq : i + (j' + 1) = (i + 1) + j' := by omega
                rw [heq]
                exact hl
              · right
                obtain ⟨pv', rest'⟩ := popped
                exact dictContains_of_pop_rest hpop _ hr
      · -- dictPop kw name = none
        split at h
        · next dv hd =>
          cases j with
          | zero => exact absurd hdflt (by simp [hd])
          | succ j' =>
            split at h
            · exact absurd h (by simp)
            · next r' hrec =>
              have hj' : j' < rest.length := Nat.lt_of_succ_lt_succ hj
              rcases ih (i+1) kw r' hrec j' hj' hdflt with hl | hr
              · left
                have heq : i + (j' + 1) = (i + 1) + j' := by omega
                rw [heq]
                exact hl
              · right
                exact hr
        · exact absurd h (by simp)

theorem bindDeclared_length (env : PyEnv) (argMode : String)
    (pos : List String) (dflt : List (String × PyObj)) :
    ∀ (names : List String) (i : Nat) (kw : List (String × String))
      (r : List PyObj × List (String × String)),
      bindDeclared env argMode pos dflt names i kw = .ok r →
      r.1.length = names.length := by
  intro names
  induction names with
  | nil =>
    intro i kw r h
    rw [bindDeclared] at h
    cases h
    rfl
  | cons name rest ih =>
    intro i kw r h
    rw [bindDeclared] at h
    split at h
    · next pv hp =>
      split at h
      · exact absurd h (by simp)
      · split at h
        · exact absurd h (by simp)
        · next v hparse =>
          split at h
          · exact absurd h (by simp)
          · next r' hrec =>
            cases h
            simpa using ih (i+1) kw r' hrec
    · split at h
      · next popped hpop =>
        split at h
        · exact absurd h (by simp)
        · next v hparse =>
          split at h
          · exact absurd h (by simp)
          · next r' hrec =>
            cases h
            simpa using ih (i+1) popped.2 r' hrec
      · split at h
        · next dv hd =>
          split at h
          · exact absurd h (by simp)
          · next r' hrec =>
            cases h
            simpa using ih (i+1) kw r' hrec
        · exact absurd h (by simp)

/-! ### Claim C3 -/

/-- C3: whenever `_parse_auto_apply_args` accepts a token sequence (the
scan producing positional strings `pos` and keyword map `kw`, and the whole
parse succeeding), the resulting binding covers every declared parameter
(so in particular every required one), no declared parameter is supplied
both positionally and as a keyword, and every parameter without a default
is supplied either positionally or as a keyword — so a positional/keyword
clash and a missing required argument can only end in an error. -/
theorem parse_auto_apply_accepts_sound (env : PyEnv) (argspec : ArgSpec)
    (tokens : List String) (argMode stdin : String)
    (pos : List String) (kw : List (String × String))
    (pa : List PyObj) (pk : List (String × PyObj))
    (hscan : scanArgs env argspec argMode stdin tokens [] [] = .ok (pos, kw))
    (hok : parseAutoApplyArgs env argspec tokens argMode stdin =
      .ok (pa, pk)) :
    argspec.args.length ≤ pa.length ∧
    (∀ j (hj : j < argspec.args.length),
      ¬(j < pos.length ∧
        dictContains kw (argspec.args.get ⟨j, hj⟩) = true)) ∧
    (∀ j (hj : j < argspec.args.length),
      dictLookup (argname2default argspec) (argspec.args.get ⟨j, hj⟩) =
        none →
      j < pos.length ∨
        dictContains kw (argspec.args.get ⟨j, hj⟩) = true) := by
  have hrec : reconcileAll env argMode argspec pos kw = .ok (pa, pk) := by
    unfold parseAutoApplyArgs at hok
    rw [hscan] at hok
    exact hok
  unfold reconcileAll at hrec
  split at hrec
  · exact absurd hrec (by simp)
  next r hb =>
    refine ⟨?_, ?_, ?_⟩
    · have hlen : r.1.length = argspec.args.length :=
        bindDeclared_length env argMode pos (argname2default argspec)
          argspec.args 0 kw r hb
      split at hrec
      · exact absurd hrec (by simp)
      next extras hext =>
        split at hrec
        · exact absurd hrec (by simp)
        next pk' hkw =>
          have : pa = r.1 ++ extras := by
            cases hrec
            rfl
          rw [this, List.length_append, hlen]
          exact Nat.le_add_right _ _
    · intro j hj hboth
      obtain ⟨hjpos, hcont⟩ := hboth
      have hsome : (pos.get? (0 + j)).isSome := by
        rw [Nat.zero_add, List.get?_eq_get hjpos]
        rfl
      have hfalse := bindDeclared_not_both env argMode pos
        (argname2default argspec) argspec.args 0 kw r hb j hj hsome
      rw [hfalse] at hcont
      exact Bool.noConfusion hcont
    · intro j hj hdflt
      rcases bindDeclared_required_covered env argMode pos
          (argname2default argspec) argspec.args 0 kw r hb j hj hdflt with
        hl | hr
      · left
        rw [Nat.zero_add] at hl
        by_contra hge
        have hnone : pos.get? j = none :=
          List.get?_eq_none.mpr (Nat.le_of_not_lt hge)
        rw [hnone] at hl
        exact absurd hl (by simp)
      · right
        exact hr

/-- Witness for `parse_auto_apply_accepts_sound`: the spec's scenario
signature `(year, month, day)` with tokens
`["--day=16", "--month=7", "--year=2014"]` is accepted, and the binding
covers all three declared parameters. -/
theorem parse_auto_apply_accepts_sound_witness :
    (⟨["year", "month", "day"], none, none, []⟩ : ArgSpec).args.length ≤
      [PyObj.str "2014", PyObj.str "7", PyObj.str "16"].length :=
  (parse_auto_apply_accepts_sound inertEnv
      ⟨["year", "month", "day"], none, none, []⟩
      ["--day=16", "--month=7", "--year=2014"] "string" ""
      [] [("day", "16"), ("month", "7"), ("year", "2014")]
      [.str "2014", .str "7", .str "16"] [] rfl rfl).1

/-! ### Claim C4 -/

theorem two_le_length_of_two_mem {α : Type} {l : List α} {x y : α}
    (hx : x ∈ l) (hy : y ∈ l) (hne : x ≠ y) : 2 ≤ l.length := by
  match l with
  | [] => cases hx
  | [z] =>
    rw [List.mem_singleton] at hx hy
    exact absurd (hx.trans hy.symm) hne
  | _ :: _ :: t => simp only [List.length_cons]; omega

/-- C4 (counterexample): the claim says a flag exactly equal to a declared
parameter name never fails with an ambiguity error even when it is a proper
prefix of another parameter; but with parameters `(foo, foobar)` the exact
flag `--foo=1` hits the prefix index at both candidates and the scan fails
with the ambiguity `ParseError`. -/
theorem exact_flag_ambiguous_counterexample :
    scanArgs inertEnv ⟨["foo", "foobar"], none, none, []⟩ "string" ""
      ["--foo=1"] [] [] =
      .error (.parseError
        "Ambiguous foo: could mean one of: --foo, --foobar") := rfl

/-- C4 (amended): an option flag equal to a declared parameter name
resolves uniquely to that parameter only when the name is not a proper
prefix of another declared parameter (the prefix index includes the full
name as a prefix of itself, so an extension makes the exact name ambiguous
as well); a flag that is a prefix of two or more distinct parameter names
matches at least two candidates, and the scan turns that into the
ambiguity error listing all of them. -/
theorem option_prefix_resolution :
    (∀ (argnames : List String) (name : String),
      argnames.Nodup → name ∈ argnames → name.data ≠ [] →
      (∀ a ∈ argnames, name.data.isPrefixOf a.data = true → a = name) →
      matchedArgnames argnames name = [name]) ∧
    (∀ (argnames : List String) (p a b : String),
      a ∈ argnames → b ∈ argnames → a ≠ b → p.data ≠ [] →
      p.data.isPrefixOf a.data = true → p.data.isPrefixOf b.data = true →
      2 ≤ (matchedArgnames argnames p).length) ∧
    (∀ env : PyEnv,
      scanArgs env ⟨["foobar", "foobaz"], none, none, []⟩ "string" ""
        ["--foobar=1"] [] [] = .ok ([], [("foobar", "1")])) := by
  refine ⟨?_, ?_, fun _ => rfl⟩
  · intro argnames name hnd hmem hne hext
    unfold matchedArgnames
    rw [if_neg (by simpa using hne)]
    induction argnames with
    | nil => cases hmem
    | cons a t ih =>
      rcases List.mem_cons.mp hmem with rfl | hmt
      · have hself : name.data.isPrefixOf name.data = true := by
          rw [List.isPrefixOf_iff_prefix]
        rw [List.filter_cons, if_pos hself]
        have hrest : t.filter (fun x => name.data.isPrefixOf x.data) = [] := by
          rw [List.filter_eq_nil_iff]
          intro x hx hpx
          have : x = name := hext x (List.mem_cons_of_mem _ hx) hpx
          exact absurd (this ▸ hx) (List.nodup_cons.mp hnd).1
        rw [hrest]
      · have hna : ¬(name.data.isPrefixOf a.data = true) := by
          intro hpa
          have : a = name := hext a (List.mem_cons_self a t) hpa
          exact absurd (this ▸ hmt) (List.nodup_cons.mp hnd).1
        rw [List.filter_cons, if_neg hna]
        exact ih (List.nodup_cons.mp hnd).2 hmt
          (fun x hx hpx => hext x (List.mem_cons_of_mem _ hx) hpx)
  · intro argnames p a b ha hb hne hp hpa hpb
    have hma : a ∈ matchedArgnames argnames p := by
      unfold matchedArgnames
      rw [if_neg (by simpa using hp)]
      exact List.mem_filter.mpr ⟨ha, hpa⟩
    have hmb : b ∈ matchedArgnames argnames p := by
      unfold matchedArgnames
      rw [if_neg (by simpa using hp)]
      exact List.mem_filter.mpr ⟨hb, hpb⟩
    exact two_le_length_of_two_mem hma hmb hne

/-- Witness for `option_prefix_resolution`: with parameters
`(foobar, foobaz)` the exact flag name `foobar` resolves uniquely, and the
proper prefix `foo` matches both candidates. -/
theorem option_prefix_resolution_witness :
    matchedArgnames ["foobar", "foobaz"] "foobar" = ["foobar"] ∧
    2 ≤ (matchedArgnames ["foobar", "foobaz"] "foo").length :=
  ⟨option_prefix_resolution.1 ["foobar", "foobaz"] "foobar"
      (by decide) (by decide) (by decide) (by decide),
   option_prefix_resolution.2.1 ["foobar", "foobaz"] "foo" "foobar" "foobaz"
      (by decide) (by decide) (by decide) (by decide) (by decide)
      (by decide)⟩

/-! ### Claim C5 -/

/-- C5 (counterexample): the claim says supplying the same keyword option
twice is an error; but the scan's `got_keyword_args[argname] = value`
silently overwrites, so `--x=1 --x=2` is accepted and binds `x` to the last
value `"2"`. -/
theorem duplicate_keyword_counterexample :
    parseAutoApplyArgs inertEnv ⟨["x"], none, none, []⟩
      ["--x=1", "--x=2"] "string" "" = .ok ([.str "2"], []) := rfl

/-- C5 (amended): a repeated keyword option is not an error — the keyword
map keeps the last occurrence's value, and binding completes with that
value (for every oracle: the flag path never consults the collaborators). -/
theorem duplicate_keyword_last_wins (env : PyEnv) :
    scanArgs env ⟨["x"], none, none, []⟩ "string" "" ["--x=1", "--x=2"]
      [] [] = .ok ([], [("x", "2")]) ∧
    parseAutoApplyArgs env ⟨["x"], none, none, []⟩ ["--x=1", "--x=2"]
      "string" "" = .ok ([.str "2"], []) :=
  ⟨rfl, rfl⟩

/-! ### Claim C7 -/

theorem seems_like_filename_three (env : PyEnv)
    (h : env.fileExists "3" = false) : seemsLikeFilename env "3" = false := by
  unfold seemsLikeFilename
  cases hs : env.isSafeFilename "3" with
  | false => simp
  | true => exact h

/-- C7: on tokens `3 / 4` with no explicit action flag and `auto` argument
mode, `_run_action` reaches the heuristic tail (no dispatch-table entry
matches `"3"`), the filename heuristic is consulted first and rejects `"3"`
(it does not exist on disk), and the join-and-eval calculator heuristic then
fires: the three tokens are concatenated to `"3 / 4"`, the action is a
single eval of that unit with an empty residual argument vector (argument
mode forced to `error`), and its produced value is the evaluation of
`"3 / 4"` — `0.75` with the arithmetic oracle — with no module-run or apply
attempt on `"3"`. -/
theorem run_action_calculator (env : PyEnv)
    (h1 : env.fileExists "3" = false)
    (h2 : env.parsableBlock "3 / 4" = true) :
    runAction env (some "auto") ["3", "/", "4"] =
      .evalCmd "3 / 4" [] (some "error") ∧
    (env.autoEval "3 / 4" = .ok (.float (3 / 4)) →
      evalActionResult env (runAction env (some "auto") ["3", "/", "4"]) =
        some (.ok (.float 0.75))) := by
  have hcls : runAction env (some "auto") ["3", "/", "4"] =
      classifyHeuristic env (some "auto") "3" ["/", "4"] := rfl
  have hfn : seemsLikeFilename env "3" = false :=
    seems_like_filename_three env h1
  have hjoin : String.intercalate " " ("3" :: ["/", "4"]) = "3 / 4" := rfl
  have hmain : runAction env (some "auto") ["3", "/", "4"] =
      .evalCmd "3 / 4" [] (some "error") := by
    rw [hcls]
    unfold classifyHeuristic
    rw [hfn]
    have hop1 : looksLikeOptionOrBlank "/" = false := rfl
    have hop2 : looksLikeOptionOrBlank "4" = false := rfl
    simp only [Bool.false_eq_true, if_false, hjoin, h2, hop1, hop2]
    simp
    intro hcontra
    have hbad := hcontra hop1
    rw [hop2] at hbad
    exact Bool.noConfusion hbad
  refine ⟨hmain, fun hev => ?_⟩
  rw [hmain]
  simp only [evalActionResult, hev, Option.some.injEq]
  norm_num

/-- Witness for `run_action_calculator`: with the arithmetic oracle the
classification is the joined eval of `"3 / 4"` with no residual arguments,
producing `0.75`. -/
theorem run_action_calculator_witness :
    runAction calcEnv (some "auto") ["3", "/", "4"] =
      .evalCmd "3 / 4" [] (some "error") ∧
    evalActionResult calcEnv
        (runAction calcEnv (some "auto") ["3", "/", "4"]) =
      some (.ok (.float 0.75)) :=
  ⟨(run_action_calculator calcEnv rfl rfl).1,
   (run_action_calculator calcEnv rfl rfl).2 rfl⟩

end Pyflyby
